import Mathlib

/-!
# Verification of the CloudFront VPC Origin resource adapter

A shallow embedding of `internal/service/cloudfront/vpc_origin.go`: the
status prober (`VPCOriginStatus`), the poll-until-state waits
(`waitVPCOriginDeployed`, `waitVPCOriginDeleted`) and the lifecycle
orchestrators (`Create`, `Read`, `Update`, `Delete`).

The polling engine itself (`retry.StateChangeConf.WaitForStateContext`)
and the error classifiers (`errs.IsA`, `tfresource.NotFound`) live outside
the given source tree; they are modelled from the specification and marked
`Modelled from the spec:` below.  Remote interactions are embedded as
traces: each orchestrator takes an environment record holding the results
the remote API would return, and additionally produces the list of calls
it issued, so that statements about *which* call was made with *which*
arguments are provable.
-/

namespace VpcOrigin

/-- Error classes raised by the remote API, as the adapter distinguishes
them.  `entityNotFound` embeds `awstypes.EntityNotFound`; the remaining
constructors embed the specification's error taxonomy (permanent
access-denied / malformed request versus transient throttling / network
faults). -/
inductive AwsErr where
  | entityNotFound
  | accessDenied
  | malformedRequest
  | throttling
  | networkBlip
  deriving DecidableEq, Repr

/-- Embeds `errs.IsA[*awstypes.EntityNotFound](err)`: the check whether an
error value belongs to the distinguished not-found error class. -/
def isEntityNotFound : AwsErr → Bool
  | AwsErr.entityNotFound => true
  | _ => false

/-- Modelled from the spec: the classification of a read failure as
non-retryable (permanent: auth failure, malformed request) versus
retryable (transient: throttling, network blip).  The classifying code is
part of the repository's retry engine, which is not under the given source
tree. -/
def nonRetryable : AwsErr → Bool
  | AwsErr.accessDenied => true
  | AwsErr.malformedRequest => true
  | _ => false

/-- Embeds `awstypes.VpcOrigin`: the remote object, with its identity,
ARN, status and server-computed timestamps.  Timestamps are embedded as
naturals. -/
structure VpcOriginObj where
  id : String
  arn : String
  status : String
  createdTime : Nat
  lastModifiedTime : Nat
  deriving DecidableEq, Repr

/-- Embeds `cloudfront.GetVpcOriginOutput`: the response of a
`GetVpcOrigin` read, carrying the object and the concurrency token. -/
structure GetVpcOriginOutput where
  vpcOrigin : VpcOriginObj
  eTag : String
  deriving DecidableEq, Repr

/-- Embeds `cloudfront.CreateVpcOriginOutput`. -/
structure CreateVpcOriginOutput where
  vpcOrigin : VpcOriginObj
  eTag : String
  deriving DecidableEq, Repr

/-- Embeds `cloudfront.UpdateVpcOriginOutput`. -/
structure UpdateVpcOriginOutput where
  vpcOrigin : VpcOriginObj
  eTag : String
  deriving DecidableEq, Repr

/-- The result of one remote `GetVpcOrigin` call: either an error, or a
(possibly nil) response pointer.  `Except.ok none` embeds the Go case of a
nil response with a nil error. -/
abbrev GetResp := Except AwsErr (Option GetVpcOriginOutput)

/-- The triple returned by one invocation of the `retry.StateRefreshFunc`
built by `VPCOriginStatus`: `(interface{}, string, error)`. -/
structure RefreshResult where
  result : Option GetVpcOriginOutput
  state : String
  error : Option AwsErr
  deriving DecidableEq, Repr

/-- Embeds the closure returned by `VPCOriginStatus` (vpc_origin.go lines
296-316), as a function of the remote response it observes:
an `EntityNotFound` error maps to `(nil, "", nil)`; any other error is
propagated; a nil response maps to `(nil, "", nil)`; otherwise the
response and its object's status are returned. -/
def vpcOriginStatusRefresh (r : GetResp) : RefreshResult :=
  match r with
  | Except.error e =>
      if isEntityNotFound e then ⟨none, "", none⟩ else ⟨none, "", some e⟩
  | Except.ok none => ⟨none, "", none⟩
  | Except.ok (some output) => ⟨some output, output.vpcOrigin.status, none⟩

/-- The dynamic (interface-typed) first component returned by the wait
engine, mirroring Go's `interface{}` result: it is nil, or holds a
`*cloudfront.GetVpcOriginOutput` (what the refresh function stores), or
a `*awstypes.VpcOrigin` (the type the callers' type assertion tests
for). -/
inductive GoDyn where
  | nilv
  | getOutput (o : GetVpcOriginOutput)
  | vpcOrigin (v : VpcOriginObj)
  deriving DecidableEq, Repr

/-- Embeds the Go type assertion `outputRaw.(*awstypes.VpcOrigin)`:
succeeds exactly when the dynamic value holds a `*awstypes.VpcOrigin`. -/
def assertVpcOrigin : GoDyn → Option VpcOriginObj
  | GoDyn.vpcOrigin v => some v
  | _ => none

/-- The ways a wait can fail, following the specification's taxonomy:
disappearance while a target status was expected, an unexpected status,
a permanent (non-retryable) read error, or the deadline elapsing. -/
inductive WaitError where
  | unexpectedDisappearance
  | unexpectedState (state : String)
  | permanent (e : AwsErr)
  | timeout
  deriving DecidableEq, Repr

/-- Modelled from the spec: the Poll-Until-State Engine
(`retry.StateChangeConf.WaitForStateContext`, not under the given source
tree).  The deadline is embedded as the finite list of refresh results the
remote yields before the timeout; exhausting the list is the deadline
elapsing.  Per probe: a non-retryable error returns immediately, a
retryable error counts as a transient failure and polling continues;
a not-found probe is success-by-disappearance when the target set is
empty and an unexpected disappearance otherwise; an observed status in
the target set is success, in the pending set continues polling, and in
neither set returns an unexpected-state error immediately carrying the
observed object.  `last` is the last object observed so far, reported on
timeout for diagnostics. -/
def waitForState (pending target : List String) (last : GoDyn) :
    List RefreshResult → GoDyn × Option WaitError
  | [] => (last, some WaitError.timeout)
  | p :: rest =>
    match p.error with
    | some e =>
        if nonRetryable e then (GoDyn.nilv, some (WaitError.permanent e))
        else waitForState pending target last rest
    | none =>
      match p.result with
      | none =>
          if target.isEmpty then (GoDyn.nilv, none)
          else (GoDyn.nilv, some WaitError.unexpectedDisappearance)
      | some output =>
          if target.contains p.state then (GoDyn.getOutput output, none)
          else if pending.contains p.state then
            waitForState pending target (GoDyn.getOutput output) rest
          else (GoDyn.getOutput output, some (WaitError.unexpectedState p.state))

/-- Embeds `waitVPCOriginDeployed` (vpc_origin.go lines 319-334): runs the
engine with pending `{"Deploying"}`, target `{"Deployed"}` over the trace
of remote read responses, then applies the type assertion
`outputRaw.(*awstypes.VpcOrigin)` to the raw result. -/
def waitVPCOriginDeployed (responses : List GetResp) :
    Option VpcOriginObj × Option WaitError :=
  let outcome := waitForState ["Deploying"] ["Deployed"] GoDyn.nilv
    (responses.map vpcOriginStatusRefresh)
  match assertVpcOrigin outcome.1 with
  | some output => (some output, outcome.2)
  | none => (none, outcome.2)

/-- Embeds `waitVPCOriginDeleted` (vpc_origin.go lines 336-351): same as
`waitVPCOriginDeployed` but with an empty target set. -/
def waitVPCOriginDeleted (responses : List GetResp) :
    Option VpcOriginObj × Option WaitError :=
  let outcome := waitForState ["Deploying"] [] GoDyn.nilv
    (responses.map vpcOriginStatusRefresh)
  match assertVpcOrigin outcome.1 with
  | some output => (some output, outcome.2)
  | none => (none, outcome.2)

/-- A Terraform framework string value: `none` embeds null/unknown,
`some s` a known value (`types.String`). -/
abbrev FwString := Option String

/-- A framework RFC3339 timestamp value (`timetypes.RFC3339`), embedded
over naturals. -/
abbrev FwTime := Option Nat

/-- Embeds `types.String.ValueString()`: the empty string for a null or
unknown value. -/
def valueString (s : FwString) : String := s.getD ""

/-- Embeds `fwflex.StringToFramework` on a non-nil remote string. -/
def stringToFramework (s : String) : FwString := some s

/-- Embeds `fwflex.TimeToFramework` on a non-nil remote timestamp. -/
def timeToFramework (t : Nat) : FwTime := some t

/-- Embeds `vpcOriginEndpointConfigModel`: the user-submitted endpoint
configuration block. -/
structure VpcOriginEndpointConfigModel where
  originArn : FwString
  httpPort : Int
  httpsPort : Int
  name : FwString
  originProtocolPolicy : FwString
  deriving DecidableEq, Repr

/-- Embeds `vpcOriginModel`: the managed state / plan representation of
the resource (timeouts omitted; they only feed the wait deadline, which
the trace embedding already accounts for). -/
structure VpcOriginModel where
  arn : FwString
  createdTime : FwTime
  id : FwString
  eTag : FwString
  lastModifiedTime : FwTime
  status : FwString
  vpcOriginEndpointConfig : VpcOriginEndpointConfigModel
  tags : List (String × String)
  deriving DecidableEq, Repr

/-- The remote calls an orchestrator can issue, recorded in order so that
call sequencing and call arguments are provable. -/
inductive Event where
  | callCreateVpcOrigin
  | callGetVpcOrigin (id : String)
  | callUpdateVpcOrigin (id ifMatch : String)
  | callDeleteVpcOrigin (id ifMatch : String)
  | callWaitDeployed (id : String)
  | callWaitDeleted (id : String)
  deriving DecidableEq, Repr

/-- The environment of a `Create` invocation: what the remote returns to
the `CreateVpcOrigin` call (`none` embeds a nil response pointer) and the
trace of `GetVpcOrigin` responses the wait's probes observe. -/
structure CreateEnv where
  createOutput : Option CreateVpcOriginOutput
  createErr : Option AwsErr
  responses : List GetResp
  deriving Repr

/-- How a `Create` invocation ends. -/
inductive CreateOutcome where
  | diagWaitError (e : WaitError)
  | panicNilPointer
  | stateSet (d : VpcOriginModel)
  deriving DecidableEq, Repr

/-- Embeds `Create` (vpc_origin.go lines 142-176) from the mutating call
on: issue `CreateVpcOrigin`, then unconditionally wait (overwriting the
create error variable with the wait's error); on wait failure add a
diagnostic and return; otherwise dereference `output.VpcOrigin` with no
nil check (a nil create response panics here) and overwrite the ARN,
created time, identity, last-modified time, status and ETag in the plan
data from the create call's response before setting the state. -/
def create (data : VpcOriginModel) (env : CreateEnv) :
    CreateOutcome × List Event :=
  let output := env.createOutput
  let waited := waitVPCOriginDeployed env.responses
  let events := [Event.callCreateVpcOrigin,
    Event.callWaitDeployed (valueString data.id)]
  match waited.2 with
  | some e => (CreateOutcome.diagWaitError e, events)
  | none =>
    match output with
    | none => (CreateOutcome.panicNilPointer, events)
    | some out =>
        (CreateOutcome.stateSet { data with
          arn := stringToFramework out.vpcOrigin.arn
          createdTime := timeToFramework out.vpcOrigin.createdTime
          id := stringToFramework out.vpcOrigin.id
          lastModifiedTime := timeToFramework out.vpcOrigin.lastModifiedTime
          status := stringToFramework out.vpcOrigin.status
          eTag := stringToFramework out.eTag }, events)

/-- Modelled from the spec: `tfresource.NotFound` (repository code not
under the given source tree), the classification predicate deciding
whether a read error means the identity does not exist remotely. -/
def tfresourceNotFound : AwsErr → Bool
  | AwsErr.entityNotFound => true
  | _ => false

/-- How a `Read` invocation ends: the resource removed from state with
only a not-found warning; an error diagnostic with the state left
unchanged; or the refreshed state set. -/
inductive ReadOutcome where
  | removedWithWarning
  | diagReadError (e : AwsErr)
  | panicNilPointer
  | stateSet (d : VpcOriginModel)
  deriving DecidableEq, Repr

/-- Embeds `Read` (vpc_origin.go lines 178-217) from the remote call on:
issue `GetVpcOrigin`; a not-found error adds a warning and removes the
resource from state; any other error adds an error diagnostic and leaves
the state untouched; on success the response fields are flattened into
the state (a nil response with a nil error reaches the flatten and
dereferences `output.VpcOrigin` through a nil pointer). -/
def read (data : VpcOriginModel) (resp : GetResp) :
    ReadOutcome × List Event :=
  let events := [Event.callGetVpcOrigin (valueString data.id)]
  match resp with
  | Except.error e =>
      if tfresourceNotFound e then (ReadOutcome.removedWithWarning, events)
      else (ReadOutcome.diagReadError e, events)
  | Except.ok none => (ReadOutcome.panicNilPointer, events)
  | Except.ok (some out) =>
      (ReadOutcome.stateSet { data with
        arn := stringToFramework out.vpcOrigin.arn
        createdTime := timeToFramework out.vpcOrigin.createdTime
        id := stringToFramework out.vpcOrigin.id
        lastModifiedTime := timeToFramework out.vpcOrigin.lastModifiedTime
        status := stringToFramework out.vpcOrigin.status
        eTag := stringToFramework out.eTag }, events)

/-- The environment of an `Update` invocation. -/
structure UpdateEnv where
  updateOutput : Option UpdateVpcOriginOutput
  updateErr : Option AwsErr
  responses : List GetResp
  deriving Repr

/-- How an `Update` invocation ends.  `panicNilErrorCall` embeds calling
`err.Error()` on a nil error interface (a nil pointer dereference) in the
empty-response branch. -/
inductive UpdateOutcome where
  | diagWaitError (e : WaitError)
  | panicNilErrorCall
  | stateSet (d : VpcOriginModel)
  deriving DecidableEq, Repr

/-- Embeds `Update` (vpc_origin.go lines 219-267) from the mutating call
on: issue `UpdateVpcOrigin` keyed by the plan identity with the state's
ETag, then unconditionally wait on the state identity (overwriting the
update error variable with the wait's error); on wait failure add a
diagnostic and return; then check `output == nil` — in that branch the
error variable is necessarily nil (the wait succeeded), so `err.Error()`
dereferences nil; otherwise overwrite created time, last-modified time,
status and ETag in the plan data from the update call's response and set
the state. -/
def update (old new : VpcOriginModel) (env : UpdateEnv) :
    UpdateOutcome × List Event :=
  let output := env.updateOutput
  let waited := waitVPCOriginDeployed env.responses
  let events := [Event.callUpdateVpcOrigin (valueString new.id) (valueString old.eTag),
    Event.callWaitDeployed (valueString old.id)]
  match waited.2 with
  | some e => (UpdateOutcome.diagWaitError e, events)
  | none =>
    match output with
    | none => (UpdateOutcome.panicNilErrorCall, events)
    | some out =>
        (UpdateOutcome.stateSet { new with
          createdTime := timeToFramework out.vpcOrigin.createdTime
          lastModifiedTime := timeToFramework out.vpcOrigin.lastModifiedTime
          status := stringToFramework out.vpcOrigin.status
          eTag := stringToFramework out.eTag }, events)

/-- The environment of a `Delete` invocation. -/
structure DeleteEnv where
  deleteErr : Option AwsErr
  responses : List GetResp
  deriving Repr

/-- How a `Delete` invocation ends. -/
inductive DeleteOutcome where
  | diagWaitError (e : WaitError)
  | done
  deriving DecidableEq, Repr

/-- Embeds `Delete` (vpc_origin.go lines 269-293): issue
`DeleteVpcOrigin` keyed by the state identity and ETag, then
unconditionally wait for deletion (overwriting the delete error variable
with the wait's error); on wait failure add a diagnostic, otherwise
finish. -/
def delete (data : VpcOriginModel) (env : DeleteEnv) :
    DeleteOutcome × List Event :=
  let waited := waitVPCOriginDeleted env.responses
  let events := [Event.callDeleteVpcOrigin (valueString data.id) (valueString data.eTag),
    Event.callWaitDeleted (valueString data.id)]
  match waited.2 with
  | some e => (DeleteOutcome.diagWaitError e, events)
  | none => (DeleteOutcome.done, events)

/-! ## Sample values used by concrete counterexamples and witnesses -/

/-- A sample endpoint configuration as submitted in a plan. -/
def sampleConfig : VpcOriginEndpointConfigModel :=
  { originArn := some "arn:aws:elasticloadbalancing:us-east-1:123:loadbalancer/app/x"
    httpPort := 80
    httpsPort := 443
    name := some "example-origin"
    originProtocolPolicy := some "match-viewer" }

/-- A sample plan at create time: all computed attributes (identity, ETag,
timestamps, status) are unknown. -/
def samplePlan : VpcOriginModel :=
  { arn := none, createdTime := none, id := none, eTag := none
    lastModifiedTime := none, status := none
    vpcOriginEndpointConfig := sampleConfig, tags := [("env", "test")] }

/-- The object as returned by the create call. -/
def createdObj : VpcOriginObj :=
  { id := "vo-123", arn := "arn:cloudfront:vpcorigin/created"
    status := "Deploying", createdTime := 100, lastModifiedTime := 100 }

/-- The object as observed by the wait's final probe: same identity, but a
later last-modified time and the Deployed status. -/
def probedObj : VpcOriginObj :=
  { id := "vo-123", arn := "arn:cloudfront:vpcorigin/probed"
    status := "Deployed", createdTime := 100, lastModifiedTime := 200 }

/-- The create call's response. -/
def sampleCreateOutput : CreateVpcOriginOutput := ⟨createdObj, "etag-create"⟩

/-- The response observed by the wait's final probe, with a fresher
concurrency token than the create response. -/
def sampleProbeOutput : GetVpcOriginOutput := ⟨probedObj, "etag-probe"⟩

/-- A create environment in which the create call succeeds and the first
probe already observes the Deployed status. -/
def sampleCreateEnv : CreateEnv :=
  ⟨some sampleCreateOutput, none, [Except.ok (some sampleProbeOutput)]⟩

/-- A probed object whose status is in neither the pending nor the target
set of the deploy wait. -/
def failedObj : VpcOriginObj :=
  { id := "vo-123", arn := "arn:cloudfront:vpcorigin/probed"
    status := "Failed", createdTime := 100, lastModifiedTime := 200 }

/-- The probe response carrying `failedObj`. -/
def failedOutput : GetVpcOriginOutput := ⟨failedObj, "etag-failed"⟩

/-- A state/plan whose computed attributes are already known, as at
update time. -/
def samplePlanKnown : VpcOriginModel :=
  { samplePlan with
    id := some "vo-123"
    eTag := some "etag-old"
    arn := some "arn:cloudfront:vpcorigin/created"
    createdTime := some 100
    lastModifiedTime := some 100
    status := some "Deployed" }

/-- The update call's response, with a concurrency token differing from
the one the wait's final probe would report. -/
def sampleUpdateOutput : UpdateVpcOriginOutput := ⟨createdObj, "etag-update"⟩

/-- An update environment in which the update call succeeds and the first
probe already observes the Deployed status. -/
def sampleUpdateEnv : UpdateEnv :=
  ⟨some sampleUpdateOutput, none, [Except.ok (some sampleProbeOutput)]⟩

/-- A create environment in which the create call fails (nil response,
access-denied error) while the wait still observes a Deployed resource. -/
def nilCreateEnv : CreateEnv :=
  ⟨none, some AwsErr.accessDenied, [Except.ok (some sampleProbeOutput)]⟩

/-- An update environment in which the update call returns a nil response
while the wait still observes a Deployed resource. -/
def nilUpdateEnv : UpdateEnv :=
  ⟨none, some AwsErr.throttling, [Except.ok (some sampleProbeOutput)]⟩

/-! ## Claims -/

/-- C1: for both waits, a probe whose remote read fails with an error
that is not classified as non-retryable does not terminate the engine:
it counts as a transient failure and polling continues on the remaining
trace; an error classified as non-retryable is returned immediately as a
permanent wait error.  (`EntityNotFound` is excluded: the refresh
function converts it into the not-found signal before the engine sees
it.) -/
theorem transient_read_errors_continue_polling (e : AwsErr)
    (rest : List GetResp) (hnf : isEntityNotFound e = false) :
    (nonRetryable e = false →
      waitVPCOriginDeployed (Except.error e :: rest) = waitVPCOriginDeployed rest ∧
      waitVPCOriginDeleted (Except.error e :: rest) = waitVPCOriginDeleted rest) ∧
    (nonRetryable e = true →
      (waitVPCOriginDeployed (Except.error e :: rest)).2 = some (WaitError.permanent e) ∧
      (waitVPCOriginDeleted (Except.error e :: rest)).2 = some (WaitError.permanent e)) := by
  constructor <;> intro h <;>
    simp [waitVPCOriginDeployed, waitVPCOriginDeleted, waitForState,
      vpcOriginStatusRefresh, assertVpcOrigin, hnf, h]

/-- Witness for C1: with a throttling error at the head of the trace, the
deploy wait behaves exactly as on the remaining trace, and with an
access-denied error it returns the permanent error immediately. -/
theorem transient_read_errors_continue_polling_witness :
    waitVPCOriginDeployed [Except.error AwsErr.throttling, Except.ok (some sampleProbeOutput)] =
      waitVPCOriginDeployed [Except.ok (some sampleProbeOutput)] ∧
    (waitVPCOriginDeployed [Except.error AwsErr.accessDenied]).2 =
      some (WaitError.permanent AwsErr.accessDenied) :=
  ⟨((transient_read_errors_continue_polling AwsErr.throttling
      [Except.ok (some sampleProbeOutput)] rfl).1 rfl).1,
    ((transient_read_errors_continue_polling AwsErr.accessDenied [] rfl).2 rfl).1⟩

/-- C3 (code bug): the create-wait probes the identity taken from the
plan data (`data.Id.ValueString()`), not the identity returned by the
create call: the call trace of `create` always ends with a wait on the
plan identity, and on the concrete create environment the plan identity
is the empty string (the identity attribute is computed and still
unknown) while the create call returned the identity "vo-123". -/
theorem create_wait_probes_plan_id :
    (∀ (data : VpcOriginModel) (env : CreateEnv),
      (create data env).2 =
        [Event.callCreateVpcOrigin, Event.callWaitDeployed (valueString data.id)]) ∧
    ((create samplePlan sampleCreateEnv).2 =
        [Event.callCreateVpcOrigin, Event.callWaitDeployed ""] ∧
      sampleCreateOutput.vpcOrigin.id = "vo-123" ∧ ("" : String) ≠ "vo-123") := by
  refine ⟨?_, by decide⟩
  intro data env
  unfold create
  cases h : (waitVPCOriginDeployed env.responses).2 with
  | some e => simp [h]
  | none => cases env.createOutput <;> simp [h]

/-- C4: for each of the three lifecycle operations, the wait is invoked
unconditionally after the mutating call: its call event is in the trace
for every environment, in particular for environments in which the
mutating call returned an error. -/
theorem wait_invoked_unconditionally :
    (∀ (data : VpcOriginModel) (env : CreateEnv),
      Event.callWaitDeployed (valueString data.id) ∈ (create data env).2) ∧
    (∀ (old new : VpcOriginModel) (env : UpdateEnv),
      Event.callWaitDeployed (valueString old.id) ∈ (update old new env).2) ∧
    (∀ (data : VpcOriginModel) (env : DeleteEnv),
      Event.callWaitDeleted (valueString data.id) ∈ (delete data env).2) := by
  refine ⟨fun data env => ?_, fun old new env => ?_, fun data env => ?_⟩
  · unfold create
    cases h : (waitVPCOriginDeployed env.responses).2 with
    | some e => simp [h]
    | none => cases env.createOutput <;> simp [h]
  · unfold update
    cases h : (waitVPCOriginDeployed env.responses).2 with
    | some e => simp [h]
    | none => cases env.updateOutput <;> simp [h]
  · unfold delete
    cases h : (waitVPCOriginDeleted env.responses).2 with
    | some e => simp [h]
    | none => simp [h]

/-- C5: for the delete-wait (empty target set), a first probe answered
with the `EntityNotFound` error class is success-by-disappearance: the
wait returns immediately with no error and a nil final object, whatever
the rest of the trace would have been. -/
theorem delete_wait_notfound_succeeds (rest : List GetResp) :
    waitVPCOriginDeleted (Except.error AwsErr.entityNotFound :: rest) =
      (none, none) := by
  simp [waitVPCOriginDeleted, waitForState, vpcOriginStatusRefresh,
    isEntityNotFound, assertVpcOrigin]

/-- C6: for the deploy wait (non-empty target set), a trace in which
every probe is answered with the `EntityNotFound` error class resolves to
the unexpected-disappearance error, never to success. -/
theorem deploy_wait_notfound_is_disappearance (responses : List GetResp)
    (hne : responses ≠ [])
    (hall : ∀ r ∈ responses, r = Except.error AwsErr.entityNotFound) :
    (waitVPCOriginDeployed responses).2 =
      some WaitError.unexpectedDisappearance := by
  cases responses with
  | nil => exact absurd rfl hne
  | cons r rest =>
      have hr : r = Except.error AwsErr.entityNotFound := hall r (by simp)
      subst hr
      simp [waitVPCOriginDeployed, waitForState, vpcOriginStatusRefresh,
        isEntityNotFound, assertVpcOrigin]

/-- Witness for C6: a one-probe all-not-found trace yields the
unexpected-disappearance error. -/
theorem deploy_wait_notfound_is_disappearance_witness :
    (waitVPCOriginDeployed [Except.error AwsErr.entityNotFound]).2 =
      some WaitError.unexpectedDisappearance :=
  deploy_wait_notfound_is_disappearance [Except.error AwsErr.entityNotFound]
    (by simp) (by simp)

/-- C2 counterexample: in a create whose wait succeeds, the wait's final
probe result carries ETag "etag-probe", last-modified time 200 and status
"Deployed", yet the state written by `create` carries ETag "etag-create",
last-modified time 100 and status "Deploying" — the values of the create
call's response, not of the final probe result. -/
theorem create_state_not_from_final_probe :
    (waitVPCOriginDeployed sampleCreateEnv.responses).2 = none ∧
    sampleProbeOutput.eTag = "etag-probe" ∧
    sampleProbeOutput.vpcOrigin.lastModifiedTime = 200 ∧
    sampleProbeOutput.vpcOrigin.status = "Deployed" ∧
    (create samplePlan sampleCreateEnv).1 = CreateOutcome.stateSet
      { samplePlan with
        arn := some "arn:cloudfront:vpcorigin/created"
        createdTime := some 100
        id := some "vo-123"
        lastModifiedTime := some 100
        status := some "Deploying"
        eTag := some "etag-create" } ∧
    ("etag-create" : String) ≠ "etag-probe" := by
  decide

/-- C2 (amended): for every create and update whose wait succeeds, the
identity, concurrency token and server-computed timestamp/status fields
written into the state are taken from the mutating call's own response
(the wait's final probe result is discarded), and all other attributes
keep the values submitted in the request. -/
theorem merge_fields_from_mutating_call
    (data : VpcOriginModel) (env : CreateEnv)
    (old new : VpcOriginModel) (uenv : UpdateEnv)
    (out : CreateVpcOriginOutput) (uout : UpdateVpcOriginOutput)
    (hc : env.createOutput = some out)
    (hcw : (waitVPCOriginDeployed env.responses).2 = none)
    (hu : uenv.updateOutput = some uout)
    (huw : (waitVPCOriginDeployed uenv.responses).2 = none) :
    (create data env).1 = CreateOutcome.stateSet { data with
      arn := some out.vpcOrigin.arn
      createdTime := some out.vpcOrigin.createdTime
      id := some out.vpcOrigin.id
      lastModifiedTime := some out.vpcOrigin.lastModifiedTime
      status := some out.vpcOrigin.status
      eTag := some out.eTag } ∧
    (update old new uenv).1 = UpdateOutcome.stateSet { new with
      createdTime := some uout.vpcOrigin.createdTime
      lastModifiedTime := some uout.vpcOrigin.lastModifiedTime
      status := some uout.vpcOrigin.status
      eTag := some uout.eTag } := by
  constructor
  · unfold create
    simp [hcw, hc, stringToFramework, timeToFramework]
  · unfold update
    simp [huw, hu, stringToFramework, timeToFramework]

/-- Witness for the amended C2: concrete create and update runs whose
state fields all come from the respective mutating call's response. -/
theorem merge_fields_from_mutating_call_witness :
    (create samplePlan sampleCreateEnv).1 = CreateOutcome.stateSet
      { samplePlan with
        arn := some sampleCreateOutput.vpcOrigin.arn
        createdTime := some sampleCreateOutput.vpcOrigin.createdTime
        id := some sampleCreateOutput.vpcOrigin.id
        lastModifiedTime := some sampleCreateOutput.vpcOrigin.lastModifiedTime
        status := some sampleCreateOutput.vpcOrigin.status
        eTag := some sampleCreateOutput.eTag } ∧
    (update samplePlanKnown samplePlanKnown sampleUpdateEnv).1 =
      UpdateOutcome.stateSet { samplePlanKnown with
        createdTime := some sampleUpdateOutput.vpcOrigin.createdTime
        lastModifiedTime := some sampleUpdateOutput.vpcOrigin.lastModifiedTime
        status := some sampleUpdateOutput.vpcOrigin.status
        eTag := some sampleUpdateOutput.eTag } :=
  merge_fields_from_mutating_call samplePlan sampleCreateEnv
    samplePlanKnown samplePlanKnown sampleUpdateEnv
    sampleCreateOutput sampleUpdateOutput rfl (by decide) rfl (by decide)

/-- C7 counterexample: a single probe observing the status "Failed"
(neither pending nor target) makes the deploy wait return the
unexpected-state error immediately — but with a nil object, not the
last-observed object `failedObj` the claim promises. -/
theorem deploy_wait_drops_unexpected_state_object :
    waitVPCOriginDeployed [Except.ok (some failedOutput)] =
      (none, some (WaitError.unexpectedState "Failed")) ∧
    (none : Option VpcOriginObj) ≠ some failedObj := by
  decide

/-- C7 (amended): a probe observing a status in neither the pending nor
the target set makes the wait return the unexpected-state error
immediately, with no further polling; the engine's raw result does carry
the last-observed object, but `waitVPCOriginDeployed`'s type assertion
(`*awstypes.VpcOrigin` against a value of type
`*cloudfront.GetVpcOriginOutput`) fails, so the wait returns a nil
object alongside the error. -/
theorem deploy_wait_unexpected_state_immediate
    (out : GetVpcOriginOutput) (rest : List GetResp)
    (h1 : out.vpcOrigin.status ≠ "Deployed")
    (h2 : out.vpcOrigin.status ≠ "Deploying") :
    waitForState ["Deploying"] ["Deployed"] GoDyn.nilv
        ((Except.ok (some out) :: rest).map vpcOriginStatusRefresh) =
      (GoDyn.getOutput out,
        some (WaitError.unexpectedState out.vpcOrigin.status)) ∧
    waitVPCOriginDeployed (Except.ok (some out) :: rest) =
      (none, some (WaitError.unexpectedState out.vpcOrigin.status)) := by
  have hmain : waitForState ["Deploying"] ["Deployed"] GoDyn.nilv
      ((Except.ok (some out) :: rest).map vpcOriginStatusRefresh) =
      (GoDyn.getOutput out,
        some (WaitError.unexpectedState out.vpcOrigin.status)) := by
    simp [waitForState, vpcOriginStatusRefresh, h1, h2]
  refine ⟨hmain, ?_⟩
  simp [waitVPCOriginDeployed, waitForState, vpcOriginStatusRefresh,
    assertVpcOrigin, h1, h2]

/-- Witness for the amended C7: the concrete "Failed" probe returns the
unexpected-state error at once; the engine result carries the observed
response while the wait returns a nil object. -/
theorem deploy_wait_unexpected_state_immediate_witness :
    waitForState ["Deploying"] ["Deployed"] GoDyn.nilv
        ([Except.ok (some failedOutput)].map vpcOriginStatusRefresh) =
      (GoDyn.getOutput failedOutput,
        some (WaitError.unexpectedState failedOutput.vpcOrigin.status)) ∧
    waitVPCOriginDeployed [Except.ok (some failedOutput)] =
      (none, some (WaitError.unexpectedState failedOutput.vpcOrigin.status)) :=
  deploy_wait_unexpected_state_immediate failedOutput []
    (by decide) (by decide)

/-- C8: whenever the create call returns a nil response (as it does when
the call itself failed) but the subsequent wait succeeds, `Create`
reaches the unchecked dereference `output.VpcOrigin.Arn` and panics on
the nil pointer instead of reporting the create error. -/
theorem create_nil_output_panics (data : VpcOriginModel) (env : CreateEnv)
    (hout : env.createOutput = none)
    (hwait : (waitVPCOriginDeployed env.responses).2 = none) :
    (create data env).1 = CreateOutcome.panicNilPointer := by
  unfold create
  simp [hwait, hout]

/-- Witness for C8: a concrete environment where the create call failed
with access denied (nil response) while the wait observes a Deployed
resource; `create` panics on the nil dereference. -/
theorem create_nil_output_panics_witness :
    nilCreateEnv.createErr = some AwsErr.accessDenied ∧
    (create samplePlan nilCreateEnv).1 = CreateOutcome.panicNilPointer :=
  ⟨rfl, create_nil_output_panics samplePlan nilCreateEnv rfl (by decide)⟩

/-- C9: whenever the update call returns a nil response but the wait
succeeds, `Update` reaches the empty-response branch with the error
variable already overwritten to nil by the successful wait, and calls
`Error()` on that nil error (a nil pointer dereference) instead of
producing a well-formed diagnostic. -/
theorem update_nil_output_calls_error_on_nil
    (old new : VpcOriginModel) (env : UpdateEnv)
    (hout : env.updateOutput = none)
    (hwait : (waitVPCOriginDeployed env.responses).2 = none) :
    (update old new env).1 = UpdateOutcome.panicNilErrorCall := by
  unfold update
  simp [hwait, hout]

/-- Witness for C9: a concrete environment with a nil update response and
a successful wait; `update` hits the nil-error `Error()` call. -/
theorem update_nil_output_calls_error_on_nil_witness :
    nilUpdateEnv.updateOutput = none ∧
    (update samplePlanKnown samplePlanKnown nilUpdateEnv).1 =
      UpdateOutcome.panicNilErrorCall :=
  ⟨rfl, update_nil_output_calls_error_on_nil samplePlanKnown samplePlanKnown
    nilUpdateEnv rfl (by decide)⟩

/-- C10: when the top-level read fails with the `EntityNotFound` error
class, the resource is removed from the managed state with only a
not-found warning; when it fails with any other error, an error
diagnostic is reported and the managed state is left unchanged. -/
theorem read_notfound_removes_resource (data : VpcOriginModel) (e : AwsErr) :
    (isEntityNotFound e = true →
      (read data (Except.error e)).1 = ReadOutcome.removedWithWarning) ∧
    (isEntityNotFound e = false →
      (read data (Except.error e)).1 = ReadOutcome.diagReadError e) := by
  constructor <;> intro h <;> cases e <;>
    simp_all [read, tfresourceNotFound, isEntityNotFound]

/-- Witness for C10: a not-found read removes the resource with a
warning; a throttling read error is reported as an error diagnostic. -/
theorem read_notfound_removes_resource_witness :
    (read samplePlan (Except.error AwsErr.entityNotFound)).1 =
      ReadOutcome.removedWithWarning ∧
    (read samplePlan (Except.error AwsErr.throttling)).1 =
      ReadOutcome.diagReadError AwsErr.throttling :=
  ⟨(read_notfound_removes_resource samplePlan AwsErr.entityNotFound).1 rfl,
    (read_notfound_removes_resource samplePlan AwsErr.throttling).2 rfl⟩

end VpcOrigin
